import Mathlib

/-!
Shallow embedding of `src/geojson2png/geojson2png.py`, a batch script that
renders Meshiphi GeoJSON meshes to PNG images.  Pure logic (hex colour
parsing, the AMSR2 colour lookup table, the file-existence filter) is
embedded directly; the matplotlib/geopandas calls of `convert_to_png` are
embedded as an explicit render plan (the ordered list of plot layers and
save operations the function issues).  Python floats are modelled as ℚ;
fallible parsing returns `Option`.
-/

/-- An RGBA colour with each channel a rational in [0,1], as produced by
`hex_to_rgba` (each byte divided by 255). -/
structure Rgba where
  r : ℚ
  g : ℚ
  b : ℚ
  a : ℚ
deriving DecidableEq

/-- Value of a single hexadecimal digit character, as accepted by Python
`int(-, 16)` for the digit positions (0-9, a-f, A-F). -/
def hexDigitVal (c : Char) : Option Nat :=
  let n := c.toNat
  if 48 ≤ n ∧ n ≤ 57 then some (n - 48)
  else if 97 ≤ n ∧ n ≤ 102 then some (n - 87)
  else if 65 ≤ n ∧ n ≤ 70 then some (n - 55)
  else none

/-- Python `int(s, 16)` on a string of hex digits: fails on the empty
string, otherwise folds the digits most-significant first. -/
def pyIntHex (cs : List Char) : Option Nat :=
  match cs with
  | [] => none
  | _ :: _ =>
      cs.foldl (fun acc c => acc.bind fun a => (hexDigitVal c).map fun d => 16 * a + d)
        (some 0)

/-- Python `str.lstrip` with argument the hash character: drop every
leading hash from the character list. -/
def hexStrip : List Char → List Char
  | [] => []
  | c :: cs => if c = '#' then hexStrip cs else c :: cs

/-- Embedding of `hex_to_rgba`: strip leading hashes, read the byte pairs at
offsets 0, 2, 4, 6 and divide each by 255.  `none` models the Python
exception raised when a slice is empty or holds a non-hex character. -/
def hex_to_rgba (s : String) : Option Rgba :=
  let cs := hexStrip s.data
  match pyIntHex ((cs.drop 0).take 2), pyIntHex ((cs.drop 2).take 2),
      pyIntHex ((cs.drop 4).take 2), pyIntHex ((cs.drop 6).take 2) with
  | some r, some g, some b, some a =>
      some ⟨(r : ℚ) / 255, (g : ℚ) / 255, (b : ℚ) / 255, (a : ℚ) / 255⟩
  | _, _, _, _ => none

/-- The byte formed by two hex digit values, normalised to [0,1]. -/
def pairToQ (hi lo : Nat) : ℚ := ((16 * hi + lo : ℕ) : ℚ) / 255

/-- All four channels of a colour lie in the unit interval. -/
def rgbaInUnit (x : Rgba) : Prop :=
  0 ≤ x.r ∧ x.r ≤ 1 ∧ 0 ≤ x.g ∧ x.g ≤ 1 ∧ 0 ≤ x.b ∧ x.b ≤ 1 ∧ 0 ≤ x.a ∧ x.a ≤ 1

instance (x : Rgba) : Decidable (rgbaInUnit x) := by
  unfold rgbaInUnit; infer_instance

lemma hexDigitVal_le_15 {c : Char} {v : Nat} (h : hexDigitVal c = some v) : v ≤ 15 := by
  simp only [hexDigitVal] at h
  split_ifs at h <;> simp_all <;> omega

lemma hexDigitVal_ne_hash {c : Char} {v : Nat} (h : hexDigitVal c = some v) : c ≠ '#' := by
  intro hc
  subst hc
  simp [hexDigitVal] at h

lemma pyIntHex_pair {c0 c1 : Char} {v0 v1 : Nat}
    (h0 : hexDigitVal c0 = some v0) (h1 : hexDigitVal c1 = some v1) :
    pyIntHex [c0, c1] = some (16 * v0 + v1) := by
  simp [pyIntHex, h0, h1]

/-- A matplotlib `ListedColormap` plus the `set_bad` colour: the 100-entry
lookup table built in `create_amsr2_colormap` and the name of the colour
used for invalid/missing values. -/
structure Colormap where
  lut : List Rgba
  badColor : String
deriving DecidableEq

/-- Walk the rows carrying the current index `k`, replacing the rows whose
index falls in [lo, hi). -/
def setRangeAux (lo hi : Nat) (c : Rgba) : Nat → List Rgba → List Rgba
  | _, [] => []
  | k, x :: xs => (if lo ≤ k ∧ k < hi then c else x) :: setRangeAux lo hi c (k + 1) xs

/-- Numpy slice assignment `a[lo:hi] = c` on a row list: every index in
[lo, hi) (clipped to the length, as numpy clips) receives `c`. -/
def setRange (lo hi : Nat) (c : Rgba) (l : List Rgba) : List Rgba :=
  setRangeAux lo hi c 0 l

/-- Embedding of `create_amsr2_colormap`: start from `np.ones((100,4))` and
apply the thirteen slice assignments in source order (`[99:]` reaches to the
end, i.e. index 99); `set_bad(color='black')` is the `badColor` field.
`none` models the exception a failed hex parse would raise. -/
def create_amsr2_colormap : Option Colormap :=
  match hex_to_rgba "#00008b00", hex_to_rgba "#1e90ffff", hex_to_rgba "#1efaa0ff",
      hex_to_rgba "#228b22ff", hex_to_rgba "#00fa00ff", hex_to_rgba "#7dfa00ff",
      hex_to_rgba "#adff2fff", hex_to_rgba "#fafa00ff", hex_to_rgba "#fa7d00ff",
      hex_to_rgba "#fa0000ff", hex_to_rgba "#ba55d3ff", hex_to_rgba "#9400d3ff",
      hex_to_rgba "#78005aff" with
  | some c00, some c10, some c20, some c30, some c40, some c50, some c60,
      some c70, some c80, some c85, some c90, some c95, some c99 =>
      some
        { lut :=
            setRange 99 100 c99 (setRange 95 99 c95 (setRange 90 95 c90
              (setRange 85 90 c85 (setRange 80 85 c80 (setRange 70 80 c70
                (setRange 60 70 c60 (setRange 50 60 c50 (setRange 40 50 c40
                  (setRange 30 40 c30 (setRange 20 30 c20 (setRange 10 20 c10
                    (setRange 0 10 c00 (List.replicate 100 ⟨1, 1, 1, 1⟩)))))))))))))
          badColor := "black" }
  | _, _, _, _, _, _, _, _, _, _, _, _, _ => none

/-- The bucket table of the specification, written as explicit normalised
RGBA values: [0,10) dark blue transparent, ..., [99,100) dark magenta. -/
def amsr2BucketColor (i : Nat) : Rgba :=
  if i < 10 then ⟨0 / 255, 0 / 255, 139 / 255, 0 / 255⟩
  else if i < 20 then ⟨30 / 255, 144 / 255, 255 / 255, 255 / 255⟩
  else if i < 30 then ⟨30 / 255, 250 / 255, 160 / 255, 255 / 255⟩
  else if i < 40 then ⟨34 / 255, 139 / 255, 34 / 255, 255 / 255⟩
  else if i < 50 then ⟨0 / 255, 250 / 255, 0 / 255, 255 / 255⟩
  else if i < 60 then ⟨125 / 255, 250 / 255, 0 / 255, 255 / 255⟩
  else if i < 70 then ⟨173 / 255, 255 / 255, 47 / 255, 255 / 255⟩
  else if i < 80 then ⟨250 / 255, 250 / 255, 0 / 255, 255 / 255⟩
  else if i < 85 then ⟨250 / 255, 125 / 255, 0 / 255, 255 / 255⟩
  else if i < 90 then ⟨250 / 255, 0 / 255, 0 / 255, 255 / 255⟩
  else if i < 95 then ⟨186 / 255, 85 / 255, 211 / 255, 255 / 255⟩
  else if i < 99 then ⟨148 / 255, 0 / 255, 211 / 255, 255 / 255⟩
  else ⟨120 / 255, 0 / 255, 90 / 255, 255 / 255⟩

/-- The concrete value `create_amsr2_colormap` evaluates to. -/
def amsr2Concrete : Colormap :=
  { lut := (List.range 100).map amsr2BucketColor, badColor := "black" }

lemma create_amsr2_colormap_eq : create_amsr2_colormap = some amsr2Concrete := by
  rfl

lemma pairToQ_nonneg (hi lo : Nat) : 0 ≤ pairToQ hi lo := by
  unfold pairToQ
  positivity

lemma pairToQ_le_one {hi lo : Nat} (hh : hi ≤ 15) (hl : lo ≤ 15) : pairToQ hi lo ≤ 1 := by
  unfold pairToQ
  rw [div_le_one (by norm_num)]
  have hb : (16 * hi + lo : ℕ) ≤ 255 := by omega
  exact_mod_cast hb

/-- Claim C2: on a string of exactly eight hexadecimal digits, optionally
prefixed with a hash, `hex_to_rgba` returns the four byte pairs each divided
by 255; every byte pair is at most 255 and every channel lies in [0,1]. -/
theorem hex_to_rgba_hexpairs (pfx : Bool) (c0 c1 c2 c3 c4 c5 c6 c7 : Char)
    (v0 v1 v2 v3 v4 v5 v6 v7 : Nat)
    (h0 : hexDigitVal c0 = some v0) (h1 : hexDigitVal c1 = some v1)
    (h2 : hexDigitVal c2 = some v2) (h3 : hexDigitVal c3 = some v3)
    (h4 : hexDigitVal c4 = some v4) (h5 : hexDigitVal c5 = some v5)
    (h6 : hexDigitVal c6 = some v6) (h7 : hexDigitVal c7 = some v7) :
    hex_to_rgba (String.mk (cond pfx ('#' :: [c0, c1, c2, c3, c4, c5, c6, c7])
        [c0, c1, c2, c3, c4, c5, c6, c7])) =
      some ⟨pairToQ v0 v1, pairToQ v2 v3, pairToQ v4 v5, pairToQ v6 v7⟩ ∧
    (16 * v0 + v1 ≤ 255 ∧ 16 * v2 + v3 ≤ 255 ∧ 16 * v4 + v5 ≤ 255 ∧ 16 * v6 + v7 ≤ 255) ∧
    rgbaInUnit ⟨pairToQ v0 v1, pairToQ v2 v3, pairToQ v4 v5, pairToQ v6 v7⟩ := by
  have b0 := hexDigitVal_le_15 h0
  have b1 := hexDigitVal_le_15 h1
  have b2 := hexDigitVal_le_15 h2
  have b3 := hexDigitVal_le_15 h3
  have b4 := hexDigitVal_le_15 h4
  have b5 := hexDigitVal_le_15 h5
  have b6 := hexDigitVal_le_15 h6
  have b7 := hexDigitVal_le_15 h7
  refine ⟨?_, by omega, ?_⟩
  · have hstrip : hexStrip (cond pfx ('#' :: [c0, c1, c2, c3, c4, c5, c6, c7])
        [c0, c1, c2, c3, c4, c5, c6, c7]) = [c0, c1, c2, c3, c4, c5, c6, c7] := by
      cases pfx <;> simp [hexStrip, hexDigitVal_ne_hash h0]
    show hex_to_rgba ⟨cond pfx ('#' :: [c0, c1, c2, c3, c4, c5, c6, c7])
        [c0, c1, c2, c3, c4, c5, c6, c7]⟩ = _
    simp only [hex_to_rgba, hstrip, List.drop, List.take, pairToQ]
    rw [pyIntHex_pair h0 h1, pyIntHex_pair h2 h3, pyIntHex_pair h4 h5, pyIntHex_pair h6 h7]
  · exact ⟨pairToQ_nonneg _ _, pairToQ_le_one b0 b1, pairToQ_nonneg _ _, pairToQ_le_one b2 b3,
      pairToQ_nonneg _ _, pairToQ_le_one b4 b5, pairToQ_nonneg _ _, pairToQ_le_one b6 b7⟩

/-- Witness for C2 at the concrete input "#1e90ffff". -/
theorem hex_to_rgba_hexpairs_witness :
    (hexDigitVal '1' = some 1 ∧ hexDigitVal 'e' = some 14 ∧ hexDigitVal '9' = some 9 ∧
      hexDigitVal '0' = some 0 ∧ hexDigitVal 'f' = some 15) ∧
    (hex_to_rgba (String.mk (cond true ('#' :: ['1', 'e', '9', '0', 'f', 'f', 'f', 'f'])
        ['1', 'e', '9', '0', 'f', 'f', 'f', 'f'])) =
      some ⟨pairToQ 1 14, pairToQ 9 0, pairToQ 15 15, pairToQ 15 15⟩ ∧
    (16 * 1 + 14 ≤ 255 ∧ 16 * 9 + 0 ≤ 255 ∧ 16 * 15 + 15 ≤ 255 ∧ 16 * 15 + 15 ≤ 255) ∧
    rgbaInUnit ⟨pairToQ 1 14, pairToQ 9 0, pairToQ 15 15, pairToQ 15 15⟩) :=
  ⟨⟨by decide, by decide, by decide, by decide, by decide⟩,
    hex_to_rgba_hexpairs true '1' 'e' '9' '0' 'f' 'f' 'f' 'f' 1 14 9 0 15 15 15 15
      (by decide) (by decide) (by decide) (by decide)
      (by decide) (by decide) (by decide) (by decide)⟩

lemma amsr2Concrete_length : amsr2Concrete.lut.length = 100 := by
  simp [amsr2Concrete]

lemma amsr2Concrete_getD {i : Nat} (hi : i < 100) (d : Rgba) :
    amsr2Concrete.lut.getD i d = amsr2BucketColor i := by
  have hl : i < amsr2Concrete.lut.length := by
    rw [amsr2Concrete_length]; exact hi
  rw [List.getD_eq_getElem _ _ hl]
  simp [amsr2Concrete]

/-- Claim C1: the colormap built by `create_amsr2_colormap` has exactly 100
entries, every entry below 100 is the bucket colour of the specification
table (entries 0-9 the RGBA of hex 00008b00, ..., entry 99 the RGBA of hex
78005aff) and the bad colour for invalid/missing values is black. -/
theorem create_amsr2_colormap_buckets (cm : Colormap)
    (h : create_amsr2_colormap = some cm) (i : Nat) (hi : i < 100) :
    cm.lut.length = 100 ∧ cm.lut.getD i ⟨1, 1, 1, 1⟩ = amsr2BucketColor i ∧
    cm.badColor = "black" := by
  rw [create_amsr2_colormap_eq] at h
  injection h with h
  subst h
  exact ⟨amsr2Concrete_length, amsr2Concrete_getD hi _, rfl⟩

/-- Witness for C1 at index 42. -/
theorem create_amsr2_colormap_buckets_witness :
    create_amsr2_colormap = some amsr2Concrete ∧ (42 : Nat) < 100 ∧
    (amsr2Concrete.lut.length = 100 ∧
      amsr2Concrete.lut.getD 42 ⟨1, 1, 1, 1⟩ = amsr2BucketColor 42 ∧
      amsr2Concrete.badColor = "black") :=
  ⟨create_amsr2_colormap_eq, by norm_num,
    create_amsr2_colormap_buckets amsr2Concrete create_amsr2_colormap_eq 42 (by norm_num)⟩


lemma amsr2BucketColor_cases (i : Nat) :
    rgbaInUnit (amsr2BucketColor i) ∧ (amsr2BucketColor i).a = if i < 10 then 0 else 1 := by
  unfold amsr2BucketColor
  by_cases h1 : i < 10
  · rw [if_pos h1]
    exact ⟨by norm_num [rgbaInUnit], by rw [if_pos h1]; norm_num⟩
  rw [if_neg h1]
  by_cases h2 : i < 20
  · rw [if_pos h2]
    exact ⟨by norm_num [rgbaInUnit], by rw [if_neg h1]; norm_num⟩
  rw [if_neg h2]
  by_cases h3 : i < 30
  · rw [if_pos h3]
    exact ⟨by norm_num [rgbaInUnit], by rw [if_neg h1]; norm_num⟩
  rw [if_neg h3]
  by_cases h4 : i < 40
  · rw [if_pos h4]
    exact ⟨by norm_num [rgbaInUnit], by rw [if_neg h1]; norm_num⟩
  rw [if_neg h4]
  by_cases h5 : i < 50
  · rw [if_pos h5]
    exact ⟨by norm_num [rgbaInUnit], by rw [if_neg h1]; norm_num⟩
  rw [if_neg h5]
  by_cases h6 : i < 60
  · rw [if_pos h6]
    exact ⟨by norm_num [rgbaInUnit], by rw [if_neg h1]; norm_num⟩
  rw [if_neg h6]
  by_cases h7 : i < 70
  · rw [if_pos h7]
    exact ⟨by norm_num [rgbaInUnit], by rw [if_neg h1]; norm_num⟩
  rw [if_neg h7]
  by_cases h8 : i < 80
  · rw [if_pos h8]
    exact ⟨by norm_num [rgbaInUnit], by rw [if_neg h1]; norm_num⟩
  rw [if_neg h8]
  by_cases h9 : i < 85
  · rw [if_pos h9]
    exact ⟨by norm_num [rgbaInUnit], by rw [if_neg h1]; norm_num⟩
  rw [if_neg h9]
  by_cases h10 : i < 90
  · rw [if_pos h10]
    exact ⟨by norm_num [rgbaInUnit], by rw [if_neg h1]; norm_num⟩
  rw [if_neg h10]
  by_cases h11 : i < 95
  · rw [if_pos h11]
    exact ⟨by norm_num [rgbaInUnit], by rw [if_neg h1]; norm_num⟩
  rw [if_neg h11]
  by_cases h12 : i < 99
  · rw [if_pos h12]
    exact ⟨by norm_num [rgbaInUnit], by rw [if_neg h1]; norm_num⟩
  rw [if_neg h12]
  exact ⟨by norm_num [rgbaInUnit], by rw [if_neg h1]; norm_num⟩

/-- Claim C8: every entry of the AMSR2 lookup table has all four channels in
[0,1]; the entries of bucket [0,10) are fully transparent (alpha 0) and all
other entries are fully opaque (alpha 1). -/
theorem amsr2_colormap_unit_alpha (cm : Colormap)
    (h : create_amsr2_colormap = some cm) (i : Nat) (hi : i < cm.lut.length) :
    rgbaInUnit (cm.lut.getD i ⟨1, 1, 1, 1⟩) ∧
    (cm.lut.getD i ⟨1, 1, 1, 1⟩).a = if i < 10 then 0 else 1 := by
  rw [create_amsr2_colormap_eq] at h
  injection h with h
  subst h
  rw [amsr2Concrete_length] at hi
  rw [amsr2Concrete_getD hi]
  exact amsr2BucketColor_cases i

/-- Witness for C8 at index 0. -/
theorem amsr2_colormap_unit_alpha_witness :
    create_amsr2_colormap = some amsr2Concrete ∧ (0 : Nat) < amsr2Concrete.lut.length ∧
    (rgbaInUnit (amsr2Concrete.lut.getD 0 ⟨1, 1, 1, 1⟩) ∧
      (amsr2Concrete.lut.getD 0 ⟨1, 1, 1, 1⟩).a = if (0 : Nat) < 10 then 0 else 1) :=
  ⟨create_amsr2_colormap_eq, by rw [amsr2Concrete_length]; norm_num,
    amsr2_colormap_unit_alpha amsr2Concrete create_amsr2_colormap_eq 0
      (by rw [amsr2Concrete_length]; norm_num)⟩

/-- The colormap argument a plot call receives: either a matplotlib colormap
name or the `ListedColormap` object built by `create_amsr2_colormap`. -/
inductive CmapSpec where
  | named (s : String)
  | custom (c : Option Colormap)
deriving DecidableEq

/-- One `df.to_crs(epsg=...).plot(...)` call of `convert_to_png`: the column
rendered, the EPSG code of the reprojection, the edge colour and line width
keyword arguments when given, and the colormap. -/
structure PlotLayer where
  column : String
  crs_epsg : Nat
  edgecolor : Option String
  linewidth : Option ℚ
  cmap : CmapSpec
deriving DecidableEq

/-- The observable effects of one `convert_to_png` call: the figure size of
the `plt.subplots` call, the plot layers in the order they are drawn, and
the `plt.savefig` calls (target path and DPI). -/
structure RenderPlan where
  figsize : ℚ × ℚ
  layers : List PlotLayer
  saves : List (String × ℚ)
deriving DecidableEq

/-- The base colormap `convert_to_png` ends up with in `default_cmap`:
`'coolwarm'` initially, switched to `'Wistia'` when the criteria column is
`'fuel'`. -/
def default_cmap_for (criteria : String) : String :=
  if criteria = "fuel" then "Wistia" else "coolwarm"

/-- Embedding of `convert_to_png` as the render plan it issues: an optional
`'inaccessible'` overlay when criteria is `'fuel'`, then the criteria column
with grey edges (AMSR2 colormap when the palette flag is set, otherwise the
base colormap), then the `'land'` layer with brown edges and the `'copper'`
colormap; one PNG is saved at the input path with `.png` appended. -/
def convert_to_png (geojson_filepath : String) (xscale yscale dpi : ℚ)
    (amsr_palette : Bool) (criteria : String) : RenderPlan :=
  let fuelLayers : List PlotLayer :=
    if criteria = "fuel" then [⟨"inaccessible", 4326, none, none, .named "RdYlBu"⟩] else []
  let mainLayer : PlotLayer :=
    if amsr_palette then
      ⟨criteria, 4326, some "grey", some (1 / 2), .custom create_amsr2_colormap⟩
    else
      ⟨criteria, 4326, some "grey", some (1 / 2), .named (default_cmap_for criteria)⟩
  let landLayer : PlotLayer := ⟨"land", 4326, some "brown", some (1 / 2), .named "copper"⟩
  { figsize := (xscale, yscale)
    layers := fuelLayers ++ [mainLayer, landLayer]
    saves := [(geojson_filepath ++ ".png", dpi)] }

/-- Embedding of `check_input_filenames`, parameterised by the ambient file
system (`isfile`, as `os.path.isfile`) and path resolution (`abspath`, as
`os.path.abspath`).  Returns the surviving filenames and the lines printed,
both in traversal order. -/
def check_input_filenames (isfile : String → Bool) (abspath : String → String) :
    List String → List String × List String
  | [] => ([], [])
  | f :: rest =>
      let done := check_input_filenames isfile abspath rest
      if isfile f then
        (abspath f :: done.1, ("Including filename: " ++ f) :: done.2)
      else
        (done.1, ("Filename " ++ f ++ " is not a file (or doesn\x27t exist): Ignoring") :: done.2)

/-- The rendering loop of `main` after argument parsing: every file kept by
`check_input_filenames` is passed to `convert_to_png` in order. -/
def main_run (isfile : String → Bool) (abspath : String → String) (files : List String)
    (xscale yscale dpi : ℚ) (palette : Bool) (criteria : String) : List RenderPlan :=
  (check_input_filenames isfile abspath files).1.map
    fun f => convert_to_png f xscale yscale dpi palette criteria

/-- `_XSCALE` of the source: default output width in inches. -/
def _XSCALE : Nat := 40

/-- `_YSCALE` of the source: default output height in inches. -/
def _YSCALE : Nat := 30

/-- `_DPI` of the source: default output resolution. -/
def _DPI : Nat := 180

/-- A default value registered with `argparse.add_argument`. -/
inductive ArgDefaultVal where
  | natV (n : Nat)
  | boolV (b : Bool)
  | strV (s : String)
deriving DecidableEq

/-- One `parser.add_argument(...)` call of `main`: the option strings, the
positional name when there is one, the help text, whether the action is
`store_true`, the destination, the default, and whether `nargs` is one or
more paths. -/
structure ArgDecl where
  flagShort : Option String
  flagLong : Option String
  positionalName : Option String
  helpText : String
  isStoreTrue : Bool
  dest : Option String
  dfltVal : Option ArgDefaultVal
  nargsOneOrMore : Bool
deriving DecidableEq

/-- The six `add_argument` calls of `main`, in source order. -/
def main_arg_decls : List ArgDecl :=
  [⟨some "-x", some "--xscale", none, "WidthScale in inches, default=" ++ toString _XSCALE,
      false, some "xscale", some (.natV _XSCALE), false⟩,
   ⟨some "-y", some "--yscale", none, "HeightScale in inches, default=" ++ toString _YSCALE,
      false, some "yscale", some (.natV _YSCALE), false⟩,
   ⟨some "-d", some "--dpi", none, "Output resolution DPI, default=" ++ toString _DPI,
      false, some "dpi", some (.natV _DPI), false⟩,
   ⟨some "-p", some "--palette_amsr", none,
      "Use the AMSR2 colormap palette instead of the default",
      true, some "palette", some (.boolV false), false⟩,
   ⟨some "-c", some "--criteria", none,
      "Use alternate colourmap criteria, instead of default SIC",
      false, some "criteria", some (.strV "SIC"), false⟩,
   ⟨none, none, some "files", "One or more Meshiphi GEOJSON mesh file path(s)",
      false, none, none, true⟩]

/-- Placeholder layer for safe list indexing in statements. -/
def noLayer : PlotLayer := ⟨"", 0, none, none, .named ""⟩

/-- Placeholder argument declaration for safe list indexing in statements. -/
def noDecl : ArgDecl := ⟨none, none, none, "", false, none, none, false⟩

lemma check_input_filenames_fst (isfile : String → Bool) (abspath : String → String) :
    ∀ files : List String,
      (check_input_filenames isfile abspath files).1 = (files.filter isfile).map abspath := by
  intro files
  induction files with
  | nil => rfl
  | cons f rest ih =>
      by_cases hf : isfile f <;>
        simp [check_input_filenames, List.filter_cons, hf, ih]

lemma check_input_filenames_snd (isfile : String → Bool) (abspath : String → String) :
    ∀ files : List String,
      (check_input_filenames isfile abspath files).2 = files.map fun f =>
        if isfile f then "Including filename: " ++ f
        else "Filename " ++ f ++ " is not a file (or doesn\x27t exist): Ignoring" := by
  intro files
  induction files with
  | nil => rfl
  | cons f rest ih =>
      by_cases hf : isfile f <;>
        simp [check_input_filenames, hf, ih]

/-- Claim C3: `check_input_filenames` keeps exactly the inputs that are
existing files (resolved through `abspath`), prints a warning line for each
input that is not an existing file and an inclusion line for the rest, and
the rendering loop of `main` renders every surviving file, so one missing
input never aborts the rest of the batch. -/
theorem check_input_filenames_skips_missing (isfile : String → Bool)
    (abspath : String → String) (files : List String) (x y d : ℚ) (p : Bool) (c : String) :
    (check_input_filenames isfile abspath files).1 = (files.filter isfile).map abspath ∧
    (check_input_filenames isfile abspath files).2 = (files.map fun f =>
      if isfile f then "Including filename: " ++ f
      else "Filename " ++ f ++ " is not a file (or doesn\x27t exist): Ignoring") ∧
    main_run isfile abspath files x y d p c =
      (files.filter isfile).map fun q => convert_to_png (abspath q) x y d p c := by
  refine ⟨check_input_filenames_fst isfile abspath files,
    check_input_filenames_snd isfile abspath files, ?_⟩
  unfold main_run
  rw [check_input_filenames_fst isfile abspath files, List.map_map]
  rfl

/-- Claim C4: when the criteria column is `'fuel'`, the plan starts with an
extra `'inaccessible'` overlay layer using the `'RdYlBu'` colormap, the base
colormap is switched from `'coolwarm'` to `'Wistia'`, and without the
palette flag the main layer is drawn with `'Wistia'`. -/
theorem convert_to_png_fuel_overlay (path : String) (x y d : ℚ) (p : Bool) :
    (convert_to_png path x y d p "fuel").layers.head? =
      some ⟨"inaccessible", 4326, none, none, .named "RdYlBu"⟩ ∧
    (convert_to_png path x y d p "fuel").layers.length = 3 ∧
    default_cmap_for "fuel" = "Wistia" ∧
    (convert_to_png path x y d false "fuel").layers.getD 1 noLayer =
      ⟨"fuel", 4326, some "grey", some (1 / 2), .named "Wistia"⟩ :=
  ⟨rfl, rfl, rfl, rfl⟩

/-- Claim C5: one `convert_to_png` call saves exactly one PNG, at the input
path with `.png` appended and at the requested DPI, from a figure of size
(xscale, yscale) inches. -/
theorem convert_to_png_saves_once (path : String) (x y d : ℚ) (p : Bool) (c : String) :
    (convert_to_png path x y d p c).saves = [(path ++ ".png", d)] ∧
    (convert_to_png path x y d p c).figsize = (x, y) :=
  ⟨rfl, rfl⟩

/-- Claim C6: the CLI defaults are width 40 inches, height 30 inches, DPI
180, AMSR2 palette flag off, criteria column `'SIC'`; the positional
argument takes one or more file paths; and with the defaults the main layer
is drawn with the `'coolwarm'` colormap. -/
theorem cli_defaults_spec (path : String) (x y d : ℚ) :
    (main_arg_decls.getD 0 noDecl).dest = some "xscale" ∧
    (main_arg_decls.getD 0 noDecl).dfltVal = some (.natV 40) ∧
    (main_arg_decls.getD 1 noDecl).dest = some "yscale" ∧
    (main_arg_decls.getD 1 noDecl).dfltVal = some (.natV 30) ∧
    (main_arg_decls.getD 2 noDecl).dest = some "dpi" ∧
    (main_arg_decls.getD 2 noDecl).dfltVal = some (.natV 180) ∧
    (main_arg_decls.getD 3 noDecl).dest = some "palette" ∧
    (main_arg_decls.getD 3 noDecl).dfltVal = some (.boolV false) ∧
    (main_arg_decls.getD 3 noDecl).isStoreTrue = true ∧
    (main_arg_decls.getD 4 noDecl).dest = some "criteria" ∧
    (main_arg_decls.getD 4 noDecl).dfltVal = some (.strV "SIC") ∧
    (main_arg_decls.getD 5 noDecl).positionalName = some "files" ∧
    (main_arg_decls.getD 5 noDecl).nargsOneOrMore = true ∧
    (convert_to_png path x y d false "SIC").layers.getD 0 noLayer =
      ⟨"SIC", 4326, some "grey", some (1 / 2), .named "coolwarm"⟩ :=
  ⟨rfl, rfl, rfl, rfl, rfl, rfl, rfl, rfl, rfl, rfl, rfl, rfl, rfl, rfl⟩

/-- Claim C7: every layer of every render plan is drawn from the data
reprojected to EPSG:4326, and the last layer drawn is always the `'land'`
layer with brown edges and the `'copper'` colormap. -/
theorem convert_to_png_layers_epsg4326_land_last (path : String) (x y d : ℚ)
    (p : Bool) (c : String) :
    ((convert_to_png path x y d p c).layers.all fun l => decide (l.crs_epsg = 4326)) = true ∧
    (convert_to_png path x y d p c).layers.getLast? =
      some ⟨"land", 4326, some "brown", some (1 / 2), .named "copper"⟩ := by
  unfold convert_to_png
  cases p <;> by_cases hc : c = "fuel" <;> simp [hc]

/-- Claim C9: with the AMSR palette flag set and criteria `'fuel'`, the main
layer is drawn with the AMSR2 colormap, and no layer of the plan uses the
`'Wistia'` colormap. -/
theorem convert_to_png_palette_precedence (path : String) (x y d : ℚ) :
    (convert_to_png path x y d true "fuel").layers =
      [⟨"inaccessible", 4326, none, none, .named "RdYlBu"⟩,
       ⟨"fuel", 4326, some "grey", some (1 / 2), .custom create_amsr2_colormap⟩,
       ⟨"land", 4326, some "brown", some (1 / 2), .named "copper"⟩] ∧
    ((convert_to_png path x y d true "fuel").layers.all
      fun l => decide (l.cmap ≠ CmapSpec.named "Wistia")) = true :=
  ⟨rfl, rfl⟩

/-- Claim C10: the kept list is exactly the `abspath` images of the existing
inputs in input order with duplicates retained; an input listed twice (and
existing) is rendered twice; and the PNG of a kept file is saved next to
the absolute input path. -/
theorem check_input_filenames_abspath_order (isfile : String → Bool)
    (abspath : String → String) (q : String) (files : List String) (x y d : ℚ)
    (p : Bool) (c : String) (hq : isfile q = true) :
    (check_input_filenames isfile abspath files).1 = (files.filter isfile).map abspath ∧
    main_run isfile abspath (q :: q :: files) x y d p c =
      convert_to_png (abspath q) x y d p c :: convert_to_png (abspath q) x y d p c ::
        main_run isfile abspath files x y d p c ∧
    (convert_to_png (abspath q) x y d p c).saves = [(abspath q ++ ".png", d)] := by
  refine ⟨check_input_filenames_fst isfile abspath files, ?_, rfl⟩
  unfold main_run
  simp [check_input_filenames, hq]

/-- Witness for C10: a file system where every path exists and the input
"m.json" listed twice. -/
theorem check_input_filenames_abspath_order_witness :
    (fun _ : String => true) "m.json" = true ∧
    ((check_input_filenames (fun _ : String => true) id []).1 =
        (List.filter (fun _ : String => true) []).map id ∧
      main_run (fun _ : String => true) id ["m.json", "m.json"] 40 30 180 false "SIC" =
        convert_to_png (id "m.json") 40 30 180 false "SIC" ::
          convert_to_png (id "m.json") 40 30 180 false "SIC" ::
            main_run (fun _ : String => true) id [] 40 30 180 false "SIC" ∧
      (convert_to_png (id "m.json") 40 30 180 false "SIC").saves =
        [(id "m.json" ++ ".png", 180)]) :=
  ⟨rfl, check_input_filenames_abspath_order (fun _ => true) id "m.json" [] 40 30 180
    false "SIC" rfl⟩
